import Mathlib

/-!
A shallow embedding of the gameplay loop of `src/main.rs` (the Duck Game,
a small Bevy arcade game).

Modelling conventions:
* `f32` arithmetic is modelled by exact rational arithmetic (`ℚ`); all the
  constants of the program (0.8, 0.9, 30.0, 50.0, 500.0, ...) are exact
  decimals, so every computation in the claims is exact.
* `Vec3::distance a b < c` (with `c > 0`, and `z = 0` for every entity the
  game creates) is modelled by the equivalent squared comparison
  `dist2 a b < c * c`, avoiding square roots.
* The `u32` resource `Score(u32)` is modelled by a `Nat` together with the
  wrapping increment `incScore s = (s + 1) % 2^32`, the release-mode
  semantics of `score.0 += 1`.
* ECS entities are records with optional components; a Bevy `Query` is a
  `List.filter` over the world's entity list, and `single()/single_mut()`
  (which succeeds exactly when the query matches one entity) is `singleMatch`.
* Randomness (`fastrand`) is passed in explicitly: the `u8(0..3)` draw as a
  `Nat` and each `fastrand::f32()` call as a rational in `[0, 1)`.
* `Commands` despawns issued inside `check_for_collisions` are deferred to
  the end of the scan, exactly as in Bevy: the scan reads the query results
  fixed at system start, and the despawn set is applied afterwards.
-/

namespace DuckGame

/-- WINDOW_WIDTH constant from main.rs. -/
def WINDOW_WIDTH : ℚ := 800

/-- WINDOW_HEIGHT constant from main.rs. -/
def WINDOW_HEIGHT : ℚ := 600

/-- PLAYER_SPEED constant from main.rs. -/
def PLAYER_SPEED : ℚ := 50

/-- GameState enum from main.rs: Playing (default) and GameOver. -/
inductive GameState where
  | Playing
  | GameOver
deriving DecidableEq

/-- A 2D vector (Bevy's Vec2 / the xy part of a translation), over exact rationals. -/
structure Vec2 where
  x : ℚ
  y : ℚ
deriving DecidableEq

/-- Squared Euclidean distance between two points.  `Vec3::distance p q < c`
(all entities stay at z = 0) holds iff `dist2 p q < c * c`. -/
def dist2 (a b : Vec2) : ℚ :=
  (a.x - b.x) * (a.x - b.x) + (a.y - b.y) * (a.y - b.y)

/-- The bullet-vs-enemy collision test of `check_for_collisions`:
`translation.distance(...) < 30.0`, modelled squared. -/
def collides (a b : Vec2) : Bool :=
  decide (dist2 a b < 30 * 30)

/-- The player-vs-enemy collision test of `check_for_player_collisions`:
`translation.distance(...) < 50.0`, modelled squared. -/
def collides50 (a b : Vec2) : Bool :=
  decide (dist2 a b < 50 * 50)

/-- The BulletAssets resource: the mesh and material handles cached at setup
and shared by every bullet.  Handles are modelled as numeric ids. -/
structure BulletAssets where
  mesh : Nat
  material : Nat
deriving DecidableEq

/-- An ECS entity: an id plus optional components.  `transform` is the xy
translation, `mesh2d`/`material` are the handle components of bullets,
`text2d` is the Text2d string, and `isPlayer`/`isEnemy` are the marker
components IsPlayer/IsEnemy. -/
structure Entity where
  id : Nat
  transform : Option Vec2
  velocity : Option Vec2
  isPlayer : Bool
  isEnemy : Bool
  mesh2d : Option Nat
  material : Option Nat
  text2d : Option String
deriving DecidableEq

/-- An RGB clear color (the ClearColor resource). -/
structure Color3 where
  r : ℚ
  g : ℚ
  b : ℚ
deriving DecidableEq

/-- The game world: the entity list plus the global resources of main.rs
(Score, the GameState machine with its queued NextState, BulletAssets,
ClearColor) and a fresh-id counter for spawns. -/
structure World where
  entities : List Entity
  score : Nat
  state : GameState
  nextState : Option GameState
  bulletAssets : BulletAssets
  clearColor : Color3
  nextId : Nat
deriving DecidableEq

/-- Keyboard state for one frame: held state for A/D/W/S and the
edge-triggered just_pressed state for Space. -/
structure Input where
  keyA : Bool
  keyD : Bool
  keyW : Bool
  keyS : Bool
  spaceJustPressed : Bool
deriving DecidableEq

/-- Bevy's `Query::single` / `single_mut`: succeeds iff exactly one entity
matches the query filter, and errors (here: `none`) on zero or several. -/
def singleMatch (p : Entity → Bool) (es : List Entity) : Option Entity :=
  match es.filter p with
  | [e] => some e
  | _ => none

/-- The wrapping `u32` increment `score.0 += 1` (release semantics). -/
def incScore (s : Nat) : Nat := (s + 1) % 2 ^ 32

/-- handle_input from main.rs: for the single entity matching
`Query<&mut Velocity, With<IsPlayer>>`, add ±PLAYER_SPEED to the velocity
for each held directional key; no-op if the query does not match exactly
one entity. -/
def handle_input (input : Input) (w : World) : World :=
  match singleMatch (fun e => e.isPlayer && e.velocity.isSome) w.entities with
  | none => w
  | some p =>
    match p.velocity with
    | none => w
    | some v =>
      let v1 := if input.keyA then Vec2.mk (v.x - PLAYER_SPEED) v.y else v
      let v2 := if input.keyD then Vec2.mk (v1.x + PLAYER_SPEED) v1.y else v1
      let v3 := if input.keyW then Vec2.mk v2.x (v2.y + PLAYER_SPEED) else v2
      let v4 := if input.keyS then Vec2.mk v3.x (v3.y - PLAYER_SPEED) else v3
      { w with entities :=
          w.entities.map (fun e => if e.id = p.id then { e with velocity := some v4 } else e) }

/-- The per-entity body of `update`: translation += velocity * dt, then, for
the player only, velocity *= 0.8 (independent of dt).  Entities lacking a
Transform or a Velocity are not matched by the query. -/
def updateEntityMotion (dt : ℚ) (e : Entity) : Entity :=
  match e.transform, e.velocity with
  | some t, some v =>
    let t2 := Vec2.mk (t.x + v.x * dt) (t.y + v.y * dt)
    let v2 := if e.isPlayer then Vec2.mk (v.x * 0.8) (v.y * 0.8) else v
    { e with transform := some t2, velocity := some v2 }
  | _, _ => e

/-- update from main.rs: motion integration over every entity matching
`Query<(&mut Transform, &mut Velocity, Option<&IsPlayer>)>`. -/
def update (dt : ℚ) (w : World) : World :=
  { w with entities := w.entities.map (updateEntityMotion dt) }

/-- The x coordinate of a spawned enemy for draw r of fastrand::f32():
`(WINDOW_WIDTH * 0.9 + r * (WINDOW_WIDTH - WINDOW_WIDTH * 0.9)) / 2.0`. -/
def enemyX (r : ℚ) : ℚ :=
  (WINDOW_WIDTH * 0.9 + r * (WINDOW_WIDTH - WINDOW_WIDTH * 0.9)) / 2

/-- The y coordinate of a spawned enemy for draw r of fastrand::f32():
`-WINDOW_HEIGHT / 2.0 + r * WINDOW_HEIGHT`. -/
def enemyY (r : ℚ) : ℚ :=
  -WINDOW_HEIGHT / 2 + r * WINDOW_HEIGHT

/-- The x velocity of a spawned enemy for draw r of fastrand::f32():
`-10.0 - r * 30.0`. -/
def enemyVelX (r : ℚ) : ℚ := -10 - r * 30

/-- The enemy entity bundle spawned by spawn_enemies: a fish sprite at
(enemyX r1, enemyY r2) with scale 0.1, velocity (enemyVelX r3, 0), IsEnemy. -/
def spawnedEnemy (id : Nat) (r1 r2 r3 : ℚ) : Entity :=
  { id := id
    transform := some (Vec2.mk (enemyX r1) (enemyY r2))
    velocity := some (Vec2.mk (enemyVelX r3) 0)
    isPlayer := false
    isEnemy := true
    mesh2d := none
    material := none
    text2d := none }

/-- spawn_enemies from main.rs: `draw` is the result of `fastrand::u8(0..3)`
and r1, r2, r3 the successive `fastrand::f32()` calls (x, y, speed).  When
`draw == 0`, spawn one enemy with a fresh id. -/
def spawn_enemies (draw : Nat) (r1 r2 r3 : ℚ) (w : World) : World :=
  if draw = 0 then
    { w with entities := w.entities ++ [spawnedEnemy w.nextId r1 r2 r3],
             nextId := w.nextId + 1 }
  else w

/-- The bullet entity bundle spawned by spawn_bullets: the shared cached
mesh/material handles, translation (x + 70, y + 14) from the player's
translation (x, y), velocity (500, 0). -/
def bulletEntity (id : Nat) (assets : BulletAssets) (x y : ℚ) : Entity :=
  { id := id
    transform := some (Vec2.mk (x + 70) (y + 14))
    velocity := some (Vec2.mk 500 0)
    isPlayer := false
    isEnemy := false
    mesh2d := some assets.mesh
    material := some assets.material
    text2d := none }

/-- spawn_bullets from main.rs: on `just_pressed(Space)`, for the single
entity matching `Query<&Transform, With<IsPlayer>>`, spawn one bullet at
offset (+70, +14) from the player with velocity (500, 0) using the shared
BulletAssets handles; otherwise do nothing. -/
def spawn_bullets (input : Input) (w : World) : World :=
  if input.spaceJustPressed then
    match singleMatch (fun e => e.isPlayer && e.transform.isSome) w.entities with
    | none => w
    | some p =>
      match p.transform with
      | none => w
      | some t =>
        { w with entities := w.entities ++ [bulletEntity w.nextId w.bulletAssets t.x t.y],
                 nextId := w.nextId + 1 }
  else w

/-- The bullet query of check_for_collisions: `Query<(Entity, &Transform), With<Mesh2d>>`. -/
def bulletQ (e : Entity) : Bool := e.mesh2d.isSome && e.transform.isSome

/-- The enemy query of check_for_collisions: `Query<(Entity, &Transform), With<IsEnemy>>`. -/
def enemyQ (e : Entity) : Bool := e.isEnemy && e.transform.isSome

/-- The translation a query hands out for a matched entity (the query
filters guarantee the component is present). -/
def posOf (e : Entity) : Vec2 := e.transform.getD (Vec2.mk 0 0)

/-- The (bullet, enemy) pairs at distance < 30 found by the nested loop of
check_for_collisions, in loop order (`List.product` enumerates the outer
bullet loop then the inner enemy loop).  The queried lists are fixed for
the whole scan because despawns are deferred Commands. -/
def hitPairs (w : World) : List (Entity × Entity) :=
  ((w.entities.filter bulletQ).product (w.entities.filter enemyQ)).filter
    (fun p => collides (posOf p.1) (posOf p.2))

/-- check_for_collisions from main.rs: for every bullet and every enemy at
distance < 30, despawn both (deferred to the end of the scan) and run
`score.0 += 1` once per such pair. -/
def check_for_collisions (w : World) : World :=
  { w with
    score := (hitPairs w).foldl (fun s _ => incScore s) w.score,
    entities := w.entities.filter
      (fun e => !((hitPairs w).any (fun p => p.1.id == e.id || p.2.id == e.id))) }

/-- The inner enemy loop of check_for_player_collisions: for each enemy at
distance < 50 from the player translation tp, request `NextState::set(GameOver)`. -/
def scanEnemies (tp : Vec2) (l : List Entity) (acc : World) : World :=
  match l with
  | [] => acc
  | en :: rest =>
    scanEnemies tp rest
      (if collides50 tp (posOf en) then { acc with nextState := some GameState.GameOver } else acc)

/-- check_for_player_collisions from main.rs: for the single entity matching
`Query<&Transform, With<IsPlayer>>`, scan every IsEnemy entity and request
the GameOver transition on any hit; no-op if the player query fails. -/
def check_for_player_collisions (w : World) : World :=
  match singleMatch (fun e => e.isPlayer && e.transform.isSome) w.entities with
  | none => w
  | some p =>
    match p.transform with
    | none => w
    | some tp => scanEnemies tp (w.entities.filter enemyQ) w

/-- darken_screen from main.rs: set the clear color to srgb(0.1, 0.1, 0.1). -/
def darken_screen (w : World) : World :=
  { w with clearColor := Color3.mk 0.1 0.1 0.1 }

/-- display_game_over_text from main.rs: spawn the centered Text2d entity
reading Game Over at (0, 0). -/
def display_game_over_text (w : World) : World :=
  { w with
    entities := w.entities ++
      [{ id := w.nextId,
         transform := some (Vec2.mk 0 0),
         velocity := none,
         isPlayer := false,
         isEnemy := false,
         mesh2d := none,
         material := none,
         text2d := some "Game Over!" }],
    nextId := w.nextId + 1 }

/-- update_score_text from main.rs: for the single entity matching
`Query<&mut Text2d>`, overwrite its text with the current score; no-op
when the query does not match exactly one entity. -/
def update_score_text (w : World) : World :=
  match singleMatch (fun e => e.text2d.isSome) w.entities with
  | none => w
  | some t =>
    { w with entities :=
        w.entities.map (fun e =>
          if e.id = t.id then { e with text2d := some ("Score: " ++ toString w.score) } else e) }

/-- Applying a queued NextState at the state-transition point of the frame
loop: if a transition was requested, it becomes the current state. -/
def applyNextState (w : World) : World :=
  match w.nextState with
  | some s => { w with state := s, nextState := none }
  | none => w

/-- The OnEnter(GameState::GameOver) one-shot systems of main.rs, run once
at the transition edge. -/
def onEnterGameOver (w : World) : World :=
  display_game_over_text (darken_screen w)

/-- The per-frame inputs the engine feeds the systems: keyboard state, the
frame delta in seconds, whether the 0.25 s enemy timer fired this frame,
and the random draws consumed by spawn_enemies when it runs. -/
structure FrameInput where
  input : Input
  dt : ℚ
  timerFired : Bool
  draw : Nat
  r1 : ℚ
  r2 : ℚ
  r3 : ℚ
deriving DecidableEq

/-- spawn_enemies is gated by `run_if(on_timer(0.25 s))`. -/
def maybeSpawnEnemies (fi : FrameInput) (w : World) : World :=
  if fi.timerFired then spawn_enemies fi.draw fi.r1 fi.r2 fi.r3 w else w

/-- The part of the Update schedule that runs before check_for_collisions,
in the order they are listed in main: handle_input, update, spawn_enemies
(timer-gated), spawn_bullets. -/
def preCollision (fi : FrameInput) (w : World) : World :=
  spawn_bullets fi.input (maybeSpawnEnemies fi (update fi.dt (handle_input fi.input w)))

/-- The OnEnter(GameOver) one-shots fire exactly at the transition edge:
they run on the world that has just switched to GameOver. -/
def postTransition (w : World) : World :=
  if w.state = GameState.GameOver then onEnterGameOver w else w

/-- One frame of the game: while Playing, run the Update systems in their
listed order (all gated by `run_if(in_state(Playing))`), then apply any
queued state transition, running the OnEnter(GameOver) one-shots at the
transition edge.  In GameOver no system of this repository runs. -/
def frameStep (fi : FrameInput) (w : World) : World :=
  if w.state = GameState.Playing then
    postTransition (applyNextState
      (update_score_text (check_for_player_collisions (check_for_collisions (preCollision fi w)))))
  else w

/-- A whole execution: fold frameStep over the per-frame inputs. -/
def runFrames (l : List FrameInput) (w : World) : World :=
  l.foldl (fun w2 fi => frameStep fi w2) w

/-- The Camera2d entity spawned by setup. -/
def initialCamera : Entity :=
  { id := 0, transform := some (Vec2.mk 0 0), velocity := none,
    isPlayer := false, isEnemy := false, mesh2d := none, material := none, text2d := none }

/-- The player duck spawned by setup: at the origin, zero velocity, IsPlayer. -/
def initialPlayer : Entity :=
  { id := 1, transform := some (Vec2.mk 0 0), velocity := some (Vec2.mk 0 0),
    isPlayer := true, isEnemy := false, mesh2d := none, material := none, text2d := none }

/-- The score text entity spawned by setup at (0, WINDOW_HEIGHT / 2 - 30). -/
def initialScoreText : Entity :=
  { id := 2, transform := some (Vec2.mk 0 (WINDOW_HEIGHT / 2 - 30)), velocity := none,
    isPlayer := false, isEnemy := false, mesh2d := none, material := none,
    text2d := some "Score: 0" }

/-- The world produced by the Startup `setup` system: a camera, the player
duck at the origin with zero velocity, the cached BulletAssets handles, and
the score text entity. -/
def initialWorld : World :=
  { entities := [initialCamera, initialPlayer, initialScoreText],
    score := 0,
    state := GameState.Playing,
    nextState := none,
    bulletAssets := { mesh := 0, material := 1 },
    clearColor := Color3.mk 0 0.722 0.961,
    nextId := 3 }

/-- Keyboard state with only the fire key just pressed. -/
def fireInput : Input :=
  { keyA := false, keyD := false, keyW := false, keyS := false, spaceJustPressed := true }

/-- A sample player entity used to instantiate the motion theorem. -/
def samplePlayer : Entity :=
  { id := 9, transform := some (Vec2.mk 3 4), velocity := some (Vec2.mk 10 20),
    isPlayer := true, isEnemy := false, mesh2d := none, material := none, text2d := none }

/-- Keyboard state with no key held and no fire press. -/
def noKeys : Input :=
  { keyA := false, keyD := false, keyW := false, keyS := false, spaceJustPressed := false }

/-- A quiescent frame: no keys, zero delta, enemy timer not fired. -/
def quietFrame : FrameInput :=
  { input := noKeys, dt := 0, timerFired := false, draw := 1, r1 := 0, r2 := 0, r3 := 0 }

/-- Scenario world of the spec: one bullet and one enemy, both at (100, 100). -/
def pairScenario : World :=
  { entities :=
      [{ id := 0, transform := some (Vec2.mk 100 100), velocity := some (Vec2.mk 500 0),
         isPlayer := false, isEnemy := false, mesh2d := some 0, material := some 1, text2d := none },
       { id := 1, transform := some (Vec2.mk 100 100), velocity := some (Vec2.mk (-20) 0),
         isPlayer := false, isEnemy := true, mesh2d := none, material := none, text2d := none }],
    score := 0, state := GameState.Playing, nextState := none,
    bulletAssets := { mesh := 0, material := 1 },
    clearColor := Color3.mk 0 0.722 0.961, nextId := 2 }

/-- One bullet at the origin simultaneously within 30 units of two enemies. -/
def multiHitScenario : World :=
  { entities :=
      [{ id := 0, transform := some (Vec2.mk 0 0), velocity := some (Vec2.mk 500 0),
         isPlayer := false, isEnemy := false, mesh2d := some 0, material := some 1, text2d := none },
       { id := 1, transform := some (Vec2.mk 10 0), velocity := some (Vec2.mk (-20) 0),
         isPlayer := false, isEnemy := true, mesh2d := none, material := none, text2d := none },
       { id := 2, transform := some (Vec2.mk 0 10), velocity := some (Vec2.mk (-20) 0),
         isPlayer := false, isEnemy := true, mesh2d := none, material := none, text2d := none }],
    score := 0, state := GameState.Playing, nextState := none,
    bulletAssets := { mesh := 0, material := 1 },
    clearColor := Color3.mk 0 0.722 0.961, nextId := 3 }

/-- The pair scenario with the Score counter already at the u32 maximum. -/
def overflowPairWorld : World := { pairScenario with score := 2 ^ 32 - 1 }

/-- A Playing world at the u32 maximum score with one coincident
bullet-enemy pair at (50, 50), used to run a whole frame. -/
def overflowFrameWorld : World :=
  { entities :=
      [{ id := 0, transform := some (Vec2.mk 50 50), velocity := some (Vec2.mk 0 0),
         isPlayer := false, isEnemy := false, mesh2d := some 0, material := some 1, text2d := none },
       { id := 1, transform := some (Vec2.mk 50 50), velocity := some (Vec2.mk 0 0),
         isPlayer := false, isEnemy := true, mesh2d := none, material := none, text2d := none }],
    score := 2 ^ 32 - 1, state := GameState.Playing, nextState := none,
    bulletAssets := { mesh := 0, material := 1 },
    clearColor := Color3.mk 0 0.722 0.961, nextId := 2 }

/-- One bullet at the origin and one enemy at (d, 0), so at Euclidean
distance d for d ≥ 0. -/
def boundaryWorld (d : ℚ) : World :=
  { entities :=
      [{ id := 0, transform := some (Vec2.mk 0 0), velocity := some (Vec2.mk 500 0),
         isPlayer := false, isEnemy := false, mesh2d := some 0, material := some 1, text2d := none },
       { id := 1, transform := some (Vec2.mk d 0), velocity := some (Vec2.mk (-20) 0),
         isPlayer := false, isEnemy := true, mesh2d := none, material := none, text2d := none }],
    score := 0, state := GameState.Playing, nextState := none,
    bulletAssets := { mesh := 0, material := 1 },
    clearColor := Color3.mk 0 0.722 0.961, nextId := 2 }

/-- A world that has already reached GameOver. -/
def goWorld : World :=
  { entities := [], score := 5, state := GameState.GameOver, nextState := none,
    bulletAssets := { mesh := 0, material := 1 },
    clearColor := Color3.mk 0.1 0.1 0.1, nextId := 7 }

/-- A Playing world with no entities at all. -/
def emptyWorld : World :=
  { entities := [], score := 0, state := GameState.Playing, nextState := none,
    bulletAssets := { mesh := 0, material := 1 },
    clearColor := Color3.mk 0 0.722 0.961, nextId := 0 }

/-- A world with two player-tagged entities and two Text2d entities, on
which every singleton query fails with a surplus. -/
def surplusWorld : World :=
  { entities :=
      [{ id := 0, transform := some (Vec2.mk 0 0), velocity := some (Vec2.mk 1 2),
         isPlayer := true, isEnemy := false, mesh2d := none, material := none, text2d := none },
       { id := 1, transform := some (Vec2.mk 3 4), velocity := some (Vec2.mk 5 6),
         isPlayer := true, isEnemy := false, mesh2d := none, material := none, text2d := none },
       { id := 2, transform := some (Vec2.mk 0 270), velocity := none,
         isPlayer := false, isEnemy := false, mesh2d := none, material := none,
         text2d := some "Score: 0" },
       { id := 3, transform := some (Vec2.mk 0 0), velocity := none,
         isPlayer := false, isEnemy := false, mesh2d := none, material := none,
         text2d := some "Game Over!" }],
    score := 0, state := GameState.Playing, nextState := none,
    bulletAssets := { mesh := 0, material := 1 },
    clearColor := Color3.mk 0 0.722 0.961, nextId := 4 }

/-! Helper lemmas about the embedded systems. -/

theorem singleMatch_of_filter_nil {p : Entity → Bool} {es : List Entity}
    (h : es.filter p = []) : singleMatch p es = none := by
  unfold singleMatch
  rw [h]

theorem singleMatch_of_filter_single {p : Entity → Bool} {es : List Entity} {e : Entity}
    (h : es.filter p = [e]) : singleMatch p es = some e := by
  unfold singleMatch
  rw [h]

theorem singleMatch_of_two_le {p : Entity → Bool} {es : List Entity}
    (h : 2 ≤ (es.filter p).length) : singleMatch p es = none := by
  unfold singleMatch
  rcases hf : es.filter p with _ | ⟨a, _ | ⟨b, t⟩⟩
  · rfl
  · rw [hf] at h
    simp at h
  · rfl

theorem foldl_incScore {α : Type _} (l : List α) (s : Nat) (h : s + l.length < 2 ^ 32) :
    l.foldl (fun a _ => incScore a) s = s + l.length := by
  induction l generalizing s with
  | nil => simp
  | cons x xs ih =>
    have hlen : s + (xs.length + 1) < 2 ^ 32 := by
      simpa [Nat.add_comm, Nat.add_assoc] using h
    have hinc : incScore s = s + 1 := by
      unfold incScore
      exact Nat.mod_eq_of_lt (by omega)
    rw [List.foldl_cons, hinc, ih (s + 1) (by omega)]
    simp
    omega

theorem scanEnemies_cases (tp : Vec2) (l : List Entity) (acc : World) :
    scanEnemies tp l acc = acc ∨
    scanEnemies tp l acc = { acc with nextState := some GameState.GameOver } := by
  induction l generalizing acc with
  | nil => left; rfl
  | cons en rest ih =>
    rw [scanEnemies]
    by_cases hc : collides50 tp (posOf en) = true
    · rw [if_pos hc]
      rcases ih { acc with nextState := some GameState.GameOver } with h | h
      · right
        exact h
      · right
        exact h
    · rw [if_neg hc]
      exact ih acc

theorem handle_input_preserves (i : Input) (w : World) :
    (handle_input i w).score = w.score ∧ (handle_input i w).state = w.state ∧
    (handle_input i w).nextState = w.nextState := by
  cases h : singleMatch (fun e => e.isPlayer && e.velocity.isSome) w.entities with
  | none => simp [handle_input, h]
  | some p =>
    cases hv : p.velocity with
    | none => simp [handle_input, h, hv]
    | some v => simp [handle_input, h, hv]

theorem update_preserves (dt : ℚ) (w : World) :
    (update dt w).score = w.score ∧ (update dt w).state = w.state ∧
    (update dt w).nextState = w.nextState :=
  ⟨rfl, rfl, rfl⟩

theorem spawn_enemies_preserves (d : Nat) (r1 r2 r3 : ℚ) (w : World) :
    (spawn_enemies d r1 r2 r3 w).score = w.score ∧
    (spawn_enemies d r1 r2 r3 w).state = w.state ∧
    (spawn_enemies d r1 r2 r3 w).nextState = w.nextState := by
  by_cases hd : d = 0
  · rw [spawn_enemies, if_pos hd]
    exact ⟨rfl, rfl, rfl⟩
  · rw [spawn_enemies, if_neg hd]
    exact ⟨rfl, rfl, rfl⟩

theorem maybeSpawnEnemies_preserves (fi : FrameInput) (w : World) :
    (maybeSpawnEnemies fi w).score = w.score ∧ (maybeSpawnEnemies fi w).state = w.state ∧
    (maybeSpawnEnemies fi w).nextState = w.nextState := by
  by_cases ht : fi.timerFired = true
  · rw [maybeSpawnEnemies, if_pos ht]
    exact spawn_enemies_preserves fi.draw fi.r1 fi.r2 fi.r3 w
  · rw [maybeSpawnEnemies, if_neg ht]
    exact ⟨rfl, rfl, rfl⟩

theorem spawn_bullets_preserves (i : Input) (w : World) :
    (spawn_bullets i w).score = w.score ∧ (spawn_bullets i w).state = w.state ∧
    (spawn_bullets i w).nextState = w.nextState := by
  by_cases hs : i.spaceJustPressed = true
  · cases h : singleMatch (fun e => e.isPlayer && e.transform.isSome) w.entities with
    | none => simp [spawn_bullets, hs, h]
    | some p =>
      cases ht : p.transform with
      | none => simp [spawn_bullets, hs, h, ht]
      | some t => simp [spawn_bullets, hs, h, ht]
  · simp [spawn_bullets, hs]

theorem check_for_collisions_preserves (w : World) :
    (check_for_collisions w).state = w.state ∧
    (check_for_collisions w).nextState = w.nextState :=
  ⟨rfl, rfl⟩

theorem check_for_player_collisions_preserves (w : World) :
    (check_for_player_collisions w).score = w.score ∧
    (check_for_player_collisions w).state = w.state ∧
    (check_for_player_collisions w).entities = w.entities ∧
    ((check_for_player_collisions w).nextState = w.nextState ∨
      (check_for_player_collisions w).nextState = some GameState.GameOver) := by
  cases h : singleMatch (fun e => e.isPlayer && e.transform.isSome) w.entities with
  | none =>
    refine ⟨?_, ?_, ?_, Or.inl ?_⟩ <;> simp [check_for_player_collisions, h]
  | some p =>
    cases ht : p.transform with
    | none =>
      refine ⟨?_, ?_, ?_, Or.inl ?_⟩ <;> simp [check_for_player_collisions, h, ht]
    | some tp =>
      rcases scanEnemies_cases tp (w.entities.filter enemyQ) w with hs | hs
      · refine ⟨?_, ?_, ?_, Or.inl ?_⟩ <;> simp [check_for_player_collisions, h, ht, hs]
      · refine ⟨?_, ?_, ?_, Or.inr ?_⟩ <;> simp [check_for_player_collisions, h, ht, hs]

theorem update_score_text_preserves (w : World) :
    (update_score_text w).score = w.score ∧ (update_score_text w).state = w.state ∧
    (update_score_text w).nextState = w.nextState := by
  cases h : singleMatch (fun e => e.text2d.isSome) w.entities with
  | none => simp [update_score_text, h]
  | some t => simp [update_score_text, h]

theorem applyNextState_score (w : World) : (applyNextState w).score = w.score := by
  cases h : w.nextState with
  | none => simp [applyNextState, h]
  | some s => simp [applyNextState, h]

theorem onEnterGameOver_score (w : World) : (onEnterGameOver w).score = w.score := rfl

theorem onEnterGameOver_state (w : World) : (onEnterGameOver w).state = w.state := rfl

theorem preCollision_score (fi : FrameInput) (w : World) :
    (preCollision fi w).score = w.score := by
  unfold preCollision
  rw [(spawn_bullets_preserves fi.input _).1, (maybeSpawnEnemies_preserves fi _).1,
    (update_preserves fi.dt _).1, (handle_input_preserves fi.input w).1]

theorem check_for_collisions_score_eq (w : World)
    (h : w.score + (hitPairs w).length < 2 ^ 32) :
    (check_for_collisions w).score = w.score + (hitPairs w).length := by
  rw [check_for_collisions]
  exact foldl_incScore (hitPairs w) w.score h

theorem postTransition_score (w : World) : (postTransition w).score = w.score := by
  by_cases h : w.state = GameState.GameOver
  · rw [postTransition, if_pos h, onEnterGameOver_score]
  · rw [postTransition, if_neg h]

theorem frameStep_score_eq (fi : FrameInput) (w : World)
    (hp : w.state = GameState.Playing)
    (h : w.score + (hitPairs (preCollision fi w)).length < 2 ^ 32) :
    (frameStep fi w).score = w.score + (hitPairs (preCollision fi w)).length := by
  rw [frameStep, if_pos hp, postTransition_score, applyNextState_score,
    (update_score_text_preserves _).1, (check_for_player_collisions_preserves _).1,
    check_for_collisions_score_eq _ (by rw [preCollision_score]; exact h),
    preCollision_score]

theorem frameStep_gameOver (fi : FrameInput) (w : World)
    (h : w.state = GameState.GameOver) : frameStep fi w = w := by
  rw [frameStep, if_neg]
  rw [h]
  intro hc
  exact GameState.noConfusion hc

theorem runFrames_gameOver (l : List FrameInput) (w : World)
    (h : w.state = GameState.GameOver) :
    (runFrames l w).state = GameState.GameOver := by
  induction l generalizing w with
  | nil => exact h
  | cons fi rest ih =>
    show (runFrames rest (frameStep fi w)).state = GameState.GameOver
    rw [frameStep_gameOver fi w h]
    exact ih w h

/-! Claim theorems. -/

/-- C3: For every execution of the per-frame step relation, once GameState
is GameOver it is GameOver in all subsequent frames; moreover
check_for_player_collisions is the only system that writes NextState, it
only ever requests GameOver, and no system requests a transition back to
Playing. -/
theorem gameState_gameOver_terminal (l : List FrameInput) (w : World)
    (h : w.state = GameState.GameOver) :
    (runFrames l w).state = GameState.GameOver ∧
    (∀ i w2, (handle_input i w2).nextState = w2.nextState) ∧
    (∀ dt w2, (update dt w2).nextState = w2.nextState) ∧
    (∀ d r1 r2 r3 w2, (spawn_enemies d r1 r2 r3 w2).nextState = w2.nextState) ∧
    (∀ i w2, (spawn_bullets i w2).nextState = w2.nextState) ∧
    (∀ w2, (check_for_collisions w2).nextState = w2.nextState) ∧
    (∀ w2, (update_score_text w2).nextState = w2.nextState) ∧
    (∀ w2, (check_for_player_collisions w2).nextState = w2.nextState ∨
      (check_for_player_collisions w2).nextState = some GameState.GameOver) := by
  refine ⟨runFrames_gameOver l w h, ?_, ?_, ?_, ?_, ?_, ?_, ?_⟩
  · exact fun i w2 => (handle_input_preserves i w2).2.2
  · exact fun dt w2 => (update_preserves dt w2).2.2
  · exact fun d r1 r2 r3 w2 => (spawn_enemies_preserves d r1 r2 r3 w2).2.2
  · exact fun i w2 => (spawn_bullets_preserves i w2).2.2
  · exact fun w2 => (check_for_collisions_preserves w2).2
  · exact fun w2 => (update_score_text_preserves w2).2.2
  · exact fun w2 => (check_for_player_collisions_preserves w2).2.2.2

/-- Witness for C3 at a concrete GameOver world and a concrete frame list. -/
theorem gameState_gameOver_terminal_witness :
    goWorld.state = GameState.GameOver ∧
    (runFrames [quietFrame, quietFrame] goWorld).state = GameState.GameOver :=
  ⟨rfl, (gameState_gameOver_terminal [quietFrame, quietFrame] goWorld rfl).1⟩

/-- C10: Score is a u32 incremented without overflow checks by every
bullet-enemy hit, so it holds at most 2^32 - 1; the increment at that value
wraps to 0 (modulo 2^32), and a single increment is non-decreasing exactly
under the precondition Score < 2^32 - 1. -/
theorem score_u32_wrap :
    (∀ w, (check_for_collisions w).score =
      (hitPairs w).foldl (fun s _ => incScore s) w.score) ∧
    (∀ s, incScore s < 2 ^ 32) ∧
    incScore (2 ^ 32 - 1) = 0 ∧
    ¬ (2 ^ 32 - 1 : Nat) ≤ incScore (2 ^ 32 - 1) ∧
    (∀ s : Nat, s < 2 ^ 32 - 1 → incScore s = s + 1 ∧ s ≤ incScore s) := by
  have hwrap : incScore (2 ^ 32 - 1) = 0 := by
    unfold incScore
    norm_num
  refine ⟨fun w => rfl, fun s => Nat.mod_lt _ (by norm_num), hwrap, by rw [hwrap]; norm_num, ?_⟩
  intro s hs
  have heq : incScore s = s + 1 := by
    unfold incScore
    exact Nat.mod_eq_of_lt (by omega)
  exact ⟨heq, by omega⟩

/-- Witness for C10 at a concrete score below the u32 maximum. -/
theorem score_u32_wrap_witness :
    (5 : Nat) < 2 ^ 32 - 1 ∧ incScore 5 = 5 + 1 ∧ (5 : Nat) ≤ incScore 5 :=
  ⟨by norm_num, (score_u32_wrap.2.2.2.2 5 (by norm_num)).1,
    (score_u32_wrap.2.2.2.2 5 (by norm_num)).2⟩

/-- C8: When the singleton query of a system finds no matching entity (no
player for handle_input, spawn_bullets, check_for_player_collisions; no
Text2d for update_score_text), the system is a no-op for the frame and no
error is signaled. -/
theorem absent_singleton_noop :
    (∀ i w, w.entities.filter (fun e => e.isPlayer && e.velocity.isSome) = [] →
      handle_input i w = w) ∧
    (∀ i w, w.entities.filter (fun e => e.isPlayer && e.transform.isSome) = [] →
      spawn_bullets i w = w) ∧
    (∀ w, w.entities.filter (fun e => e.isPlayer && e.transform.isSome) = [] →
      check_for_player_collisions w = w) ∧
    (∀ w, w.entities.filter (fun e => e.text2d.isSome) = [] →
      update_score_text w = w) := by
  refine ⟨?_, ?_, ?_, ?_⟩
  · intro i w h
    simp only [handle_input, singleMatch_of_filter_nil h]
  · intro i w h
    cases hs : i.spaceJustPressed with
    | false => simp [spawn_bullets, hs]
    | true => simp only [spawn_bullets, hs, if_true, singleMatch_of_filter_nil h]
  · intro w h
    simp only [check_for_player_collisions, singleMatch_of_filter_nil h]
  · intro w h
    simp only [update_score_text, singleMatch_of_filter_nil h]

/-- Witness for C8 on a world with no entities at all. -/
theorem absent_singleton_noop_witness :
    emptyWorld.entities.filter (fun e => e.isPlayer && e.velocity.isSome) = [] ∧
    handle_input fireInput emptyWorld = emptyWorld ∧
    spawn_bullets fireInput emptyWorld = emptyWorld ∧
    update_score_text emptyWorld = emptyWorld :=
  ⟨rfl, absent_singleton_noop.1 fireInput emptyWorld rfl,
    absent_singleton_noop.2.1 fireInput emptyWorld rfl,
    absent_singleton_noop.2.2.2 emptyWorld rfl⟩

/-- C9: The singleton queries also fail on surplus: with two or more
matching entities, handle_input, spawn_bullets, check_for_player_collisions
and update_score_text each do nothing for the frame. -/
theorem surplus_singleton_noop :
    (∀ i w, 2 ≤ (w.entities.filter (fun e => e.isPlayer && e.velocity.isSome)).length →
      handle_input i w = w) ∧
    (∀ i w, 2 ≤ (w.entities.filter (fun e => e.isPlayer && e.transform.isSome)).length →
      spawn_bullets i w = w) ∧
    (∀ w, 2 ≤ (w.entities.filter (fun e => e.isPlayer && e.transform.isSome)).length →
      check_for_player_collisions w = w) ∧
    (∀ w, 2 ≤ (w.entities.filter (fun e => e.text2d.isSome)).length →
      update_score_text w = w) := by
  refine ⟨?_, ?_, ?_, ?_⟩
  · intro i w h
    simp only [handle_input, singleMatch_of_two_le h]
  · intro i w h
    cases hs : i.spaceJustPressed with
    | false => simp [spawn_bullets, hs]
    | true => simp only [spawn_bullets, hs, if_true, singleMatch_of_two_le h]
  · intro w h
    simp only [check_for_player_collisions, singleMatch_of_two_le h]
  · intro w h
    simp only [update_score_text, singleMatch_of_two_le h]

/-- Witness for C9 on a world with two players and two Text2d entities. -/
theorem surplus_singleton_noop_witness :
    2 ≤ (surplusWorld.entities.filter (fun e => e.isPlayer && e.velocity.isSome)).length ∧
    handle_input fireInput surplusWorld = surplusWorld ∧
    spawn_bullets fireInput surplusWorld = surplusWorld ∧
    check_for_player_collisions surplusWorld = surplusWorld ∧
    update_score_text surplusWorld = surplusWorld :=
  ⟨by norm_num [surplusWorld],
    surplus_singleton_noop.1 fireInput surplusWorld (by norm_num [surplusWorld]),
    surplus_singleton_noop.2.1 fireInput surplusWorld (by norm_num [surplusWorld]),
    surplus_singleton_noop.2.2.1 surplusWorld (by norm_num [surplusWorld]),
    surplus_singleton_noop.2.2.2 surplusWorld (by norm_num [surplusWorld])⟩

/-- C4: One invocation of update advances every entity that has a position
and a velocity by velocity * dt; exactly the player-tagged entities then
have their velocity multiplied by 0.8, a factor independent of dt, while a
non-player entity keeps its velocity unchanged. -/
theorem update_motion_spec (dt : ℚ) (w : World) (e : Entity) (t v : Vec2)
    (ht : e.transform = some t) (hv : e.velocity = some v) :
    (update dt w).entities = w.entities.map (updateEntityMotion dt) ∧
    (updateEntityMotion dt e).transform = some (Vec2.mk (t.x + v.x * dt) (t.y + v.y * dt)) ∧
    (updateEntityMotion dt e).velocity =
      some (if e.isPlayer then Vec2.mk (v.x * 0.8) (v.y * 0.8) else v) ∧
    (e.isPlayer = true →
      (updateEntityMotion dt e).velocity = some (Vec2.mk (v.x * 0.8) (v.y * 0.8))) ∧
    (e.isPlayer = false → (updateEntityMotion dt e).velocity = some v) ∧
    (∀ dt2 : ℚ, (updateEntityMotion dt2 e).velocity = (updateEntityMotion dt e).velocity) := by
  refine ⟨rfl, ?_, ?_, ?_, ?_, ?_⟩
  · simp only [updateEntityMotion, ht, hv]
  · simp only [updateEntityMotion, ht, hv]
  · intro hp
    simp only [updateEntityMotion, ht, hv, hp, if_true]
  · intro hp
    simp [updateEntityMotion, ht, hv, hp]
  · intro dt2
    simp only [updateEntityMotion, ht, hv]

/-- Witness for C4 at a concrete player entity and dt = 2. -/
theorem update_motion_witness :
    samplePlayer.transform = some (Vec2.mk 3 4) ∧
    samplePlayer.velocity = some (Vec2.mk 10 20) ∧
    (updateEntityMotion 2 samplePlayer).transform = some (Vec2.mk (3 + 10 * 2) (4 + 20 * 2)) ∧
    (updateEntityMotion 2 samplePlayer).velocity = some (Vec2.mk (10 * 0.8) (20 * 0.8)) :=
  ⟨rfl, rfl, (update_motion_spec 2 emptyWorld samplePlayer (Vec2.mk 3 4) (Vec2.mk 10 20)
      rfl rfl).2.1,
    (update_motion_spec 2 emptyWorld samplePlayer (Vec2.mk 3 4) (Vec2.mk 10 20)
      rfl rfl).2.2.2.1 rfl⟩

/-- C6: The bullet-vs-enemy collision predicate is strict: a pair at
Euclidean distance 29.99 collides (both despawn, Score increments), while
pairs at distance exactly 30 or 30.01 do not collide and the world is left
unchanged.  Distances are realised on the x axis, so the squared distance
is exactly d * d. -/
theorem collision_boundary_strict :
    dist2 (Vec2.mk 0 0) (Vec2.mk 29.99 0) = 29.99 * 29.99 ∧
    collides (Vec2.mk 0 0) (Vec2.mk 29.99 0) = true ∧
    dist2 (Vec2.mk 0 0) (Vec2.mk 30 0) = 30 * 30 ∧
    collides (Vec2.mk 0 0) (Vec2.mk 30 0) = false ∧
    dist2 (Vec2.mk 0 0) (Vec2.mk 30.01 0) = 30.01 * 30.01 ∧
    collides (Vec2.mk 0 0) (Vec2.mk 30.01 0) = false ∧
    (check_for_collisions (boundaryWorld 29.99)).score = 1 ∧
    (check_for_collisions (boundaryWorld 29.99)).entities = [] ∧
    check_for_collisions (boundaryWorld 30) = boundaryWorld 30 ∧
    check_for_collisions (boundaryWorld 30.01) = boundaryWorld 30.01 := by
  refine ⟨?_, ?_, ?_, ?_, ?_, ?_, ?_, ?_, ?_, ?_⟩
  · simp [dist2]
  · simp [collides, dist2]
    norm_num
  · simp [dist2]
  · simp [collides, dist2]
  · simp [dist2]
  · simp [collides, dist2]
    norm_num
  · norm_num [check_for_collisions, hitPairs, boundaryWorld, bulletQ, enemyQ, collides, dist2,
      posOf, incScore, List.product]
  · norm_num [check_for_collisions, hitPairs, boundaryWorld, bulletQ, enemyQ, collides, dist2,
      posOf, incScore, List.product]
  · norm_num [check_for_collisions, hitPairs, boundaryWorld, bulletQ, enemyQ, collides, dist2,
      posOf, incScore, List.product]
  · norm_num [check_for_collisions, hitPairs, boundaryWorld, bulletQ, enemyQ, collides, dist2,
      posOf, incScore, List.product]

/-- C1 counterexample: the claim puts the enemy x uniformly on the band
from 10 percent to 100 percent of the 800-unit width on the right of the
screen.  The value x = 100 lies inside that band under every reading (the
band [80, 800], its world-coordinate version [-320, 400], and the
right-half reading [40, 400] all contain 100), yet no draw r in [0, 1)
attains it: enemyX r is always above 360.  At the concrete draw r = 0 the
spawn x is 360, the infimum of the actual support. -/
theorem spawn_enemies_band_cex :
    enemyX 0 = 360 ∧
    WINDOW_WIDTH * 0.1 = 80 ∧ (80 : ℚ) ≤ 100 ∧ (100 : ℚ) ≤ WINDOW_WIDTH ∧
    ∀ r : ℚ, 0 ≤ r → r < 1 → 100 < enemyX r := by
  refine ⟨?_, ?_, by norm_num, ?_, ?_⟩
  · unfold enemyX WINDOW_WIDTH
    norm_num
  · unfold WINDOW_WIDTH
    norm_num
  · unfold WINDOW_WIDTH
    norm_num
  · intro r h0 h1
    unfold enemyX WINDOW_WIDTH
    nlinarith

/-- C1 (amended): spawn_enemies places the new enemy at
x = 360 + 40 * r1 — the affine image of the uniform draw r1 in [0, 1), so x
is uniform over [360, 400), the band from 90 percent to 100 percent of the
right half of the 800-unit-wide screen (world x spans -400 to 400) — and at
y = -300 + 600 * r2, uniform over the full 600-unit height [-300, 300). -/
theorem spawn_enemies_position_amended (r1 r2 r3 : ℚ) (w : World)
    (h1 : 0 ≤ r1) (h2 : r1 < 1) (h3 : 0 ≤ r2) (h4 : r2 < 1) :
    enemyX r1 = 360 + 40 * r1 ∧ 360 ≤ enemyX r1 ∧ enemyX r1 < 400 ∧
    enemyY r2 = -300 + 600 * r2 ∧ -300 ≤ enemyY r2 ∧ enemyY r2 < 300 ∧
    (spawn_enemies 0 r1 r2 r3 w).entities = w.entities ++ [spawnedEnemy w.nextId r1 r2 r3] ∧
    (spawnedEnemy w.nextId r1 r2 r3).transform = some (Vec2.mk (enemyX r1) (enemyY r2)) ∧
    (spawnedEnemy w.nextId r1 r2 r3).velocity = some (Vec2.mk (enemyVelX r3) 0) := by
  have hx : enemyX r1 = 360 + 40 * r1 := by
    unfold enemyX WINDOW_WIDTH
    ring_nf
  have hy : enemyY r2 = -300 + 600 * r2 := by
    unfold enemyY WINDOW_HEIGHT
    ring_nf
  refine ⟨hx, by rw [hx]; linarith, by rw [hx]; linarith,
    hy, by rw [hy]; linarith, by rw [hy]; linarith, ?_, rfl, rfl⟩
  rw [spawn_enemies, if_pos rfl]

/-- Witness for C1 at the concrete draws r1 = r2 = 1/2. -/
theorem spawn_enemies_position_witness :
    (0 : ℚ) ≤ 1 / 2 ∧ (1 / 2 : ℚ) < 1 ∧ enemyX (1 / 2) = 360 + 40 * (1 / 2) :=
  ⟨by norm_num, by norm_num,
    (spawn_enemies_position_amended (1 / 2) (1 / 2) 0 emptyWorld (by norm_num) (by norm_num)
      (by norm_num) (by norm_num)).1⟩

/-- C5: On a frame where Space was just pressed and the player query
matches exactly one entity at (x, y), spawn_bullets spawns exactly one
bullet at (x + 70, y + 14) with velocity (500, 0) carrying the shared
cached mesh and material handles; with the key not just pressed, or with
no matching player, it spawns nothing. -/
theorem spawn_bullets_spec (i : Input) (w : World) (p : Entity) (x y : ℚ)
    (hq : w.entities.filter (fun e => e.isPlayer && e.transform.isSome) = [p])
    (hp : p.transform = some (Vec2.mk x y)) :
    (i.spaceJustPressed = true →
      (spawn_bullets i w).entities =
        w.entities ++ [bulletEntity w.nextId w.bulletAssets x y] ∧
      (bulletEntity w.nextId w.bulletAssets x y).transform =
        some (Vec2.mk (x + 70) (y + 14)) ∧
      (bulletEntity w.nextId w.bulletAssets x y).velocity = some (Vec2.mk 500 0) ∧
      (bulletEntity w.nextId w.bulletAssets x y).mesh2d = some w.bulletAssets.mesh ∧
      (bulletEntity w.nextId w.bulletAssets x y).material = some w.bulletAssets.material) ∧
    (i.spaceJustPressed = false → spawn_bullets i w = w) ∧
    (∀ i2 w2, w2.entities.filter (fun e => e.isPlayer && e.transform.isSome) = [] →
      spawn_bullets i2 w2 = w2) := by
  refine ⟨?_, ?_, ?_⟩
  · intro hs
    refine ⟨?_, rfl, rfl, rfl, rfl⟩
    simp only [spawn_bullets, hs, if_true, singleMatch_of_filter_single hq, hp]
  · intro hs
    simp [spawn_bullets, hs]
  · intro i2 w2 h
    cases hs : i2.spaceJustPressed with
    | false => simp [spawn_bullets, hs]
    | true => simp only [spawn_bullets, hs, if_true, singleMatch_of_filter_nil h]

/-- Witness for C5 on the setup world, whose player query matches exactly
the initial player at the origin. -/
theorem spawn_bullets_witness :
    initialWorld.entities.filter (fun e => e.isPlayer && e.transform.isSome) = [initialPlayer] ∧
    initialPlayer.transform = some (Vec2.mk 0 0) ∧
    fireInput.spaceJustPressed = true ∧
    (spawn_bullets fireInput initialWorld).entities =
      initialWorld.entities ++ [bulletEntity initialWorld.nextId initialWorld.bulletAssets 0 0] :=
  ⟨rfl, rfl, rfl,
    ((spawn_bullets_spec fireInput initialWorld initialPlayer 0 0 rfl rfl).1 rfl).1⟩

/-- C2 counterexample: at Score = 2^32 - 1 a single coincident bullet-enemy
pair wraps the u32 counter to 0, so Score does not increase by the number
of colliding pairs in that invocation. -/
theorem check_for_collisions_overflow_cex :
    overflowPairWorld.score = 2 ^ 32 - 1 ∧
    (hitPairs overflowPairWorld).length = 1 ∧
    (check_for_collisions overflowPairWorld).score = 0 ∧
    (check_for_collisions overflowPairWorld).score ≠ overflowPairWorld.score + 1 := by
  refine ⟨rfl, ?_, ?_, ?_⟩ <;>
    norm_num [check_for_collisions, hitPairs, overflowPairWorld, pairScenario, bulletQ,
      enemyQ, collides, dist2, posOf, incScore, List.product]

/-- C2 (amended): provided the new total stays within u32 range
(Score + k ≤ 2^32 - 1 for k colliding pairs), a single invocation of
check_for_collisions increases Score by exactly the number of
(bullet, enemy) pairs at Euclidean distance < 30; despawns are deferred to
the end of the scan, so one bullet within range of two enemies awards two
points, and a single coincident bullet-enemy pair despawns both with Score
incremented by exactly 1. -/
theorem check_for_collisions_score_amended :
    (∀ w : World, w.score + (hitPairs w).length < 2 ^ 32 →
      (check_for_collisions w).score = w.score + (hitPairs w).length) ∧
    (∀ w : World, (check_for_collisions w).entities = w.entities.filter
      (fun e => !((hitPairs w).any (fun p => p.1.id == e.id || p.2.id == e.id)))) ∧
    (hitPairs multiHitScenario).length = 2 ∧
    (check_for_collisions multiHitScenario).score = 2 ∧
    (check_for_collisions multiHitScenario).entities = [] ∧
    (hitPairs pairScenario).length = 1 ∧
    (check_for_collisions pairScenario).score = 1 ∧
    (check_for_collisions pairScenario).entities = [] := by
  refine ⟨fun w h => check_for_collisions_score_eq w h, fun w => rfl, ?_, ?_, ?_, ?_, ?_, ?_⟩ <;>
    norm_num [check_for_collisions, hitPairs, pairScenario, multiHitScenario, bulletQ, enemyQ,
      collides, dist2, posOf, incScore, List.product]

/-- Witness for C2 applying the score equation at the coincident-pair
scenario. -/
theorem check_for_collisions_score_witness :
    pairScenario.score + (hitPairs pairScenario).length < 2 ^ 32 ∧
    (check_for_collisions pairScenario).score =
      pairScenario.score + (hitPairs pairScenario).length :=
  ⟨by norm_num [hitPairs, pairScenario, bulletQ, enemyQ, collides, dist2, posOf, List.product],
    check_for_collisions_score_amended.1 pairScenario
      (by norm_num [hitPairs, pairScenario, bulletQ, enemyQ, collides, dist2, posOf,
        List.product])⟩

/-- C7 counterexample: a frame run from Playing with Score = 2^32 - 1 and
one coincident bullet-enemy pair ends with Score = 0 < 2^32 - 1, so Score
is not unconditionally non-decreasing across a Playing frame. -/
theorem frame_score_overflow_cex :
    overflowFrameWorld.state = GameState.Playing ∧
    overflowFrameWorld.score = 2 ^ 32 - 1 ∧
    (frameStep quietFrame overflowFrameWorld).score = 0 ∧
    ¬ overflowFrameWorld.score ≤ (frameStep quietFrame overflowFrameWorld).score := by
  have hs : (frameStep quietFrame overflowFrameWorld).score = 0 := by
    norm_num [frameStep, postTransition, applyNextState, update_score_text,
      check_for_player_collisions, check_for_collisions, preCollision, maybeSpawnEnemies,
      spawn_bullets, handle_input, update, updateEntityMotion, singleMatch, scanEnemies,
      quietFrame, noKeys, overflowFrameWorld, hitPairs, bulletQ, enemyQ, collides, dist2,
      posOf, incScore, List.product]
    simp
  exact ⟨rfl, rfl, hs, by rw [hs]; norm_num [overflowFrameWorld]⟩

/-- C7 (amended): across one Playing frame whose collision scan finds k
pairs, Score is non-decreasing provided Score + k stays within u32 range;
the increment in check_for_collisions is the only mutation of Score in any
system of the program. -/
theorem frame_score_monotone_amended (fi : FrameInput) (w : World)
    (hp : w.state = GameState.Playing)
    (h : w.score + (hitPairs (preCollision fi w)).length < 2 ^ 32) :
    w.score ≤ (frameStep fi w).score ∧
    (∀ i w2, (handle_input i w2).score = w2.score) ∧
    (∀ dt w2, (update dt w2).score = w2.score) ∧
    (∀ d r1 r2 r3 w2, (spawn_enemies d r1 r2 r3 w2).score = w2.score) ∧
    (∀ i w2, (spawn_bullets i w2).score = w2.score) ∧
    (∀ w2, (check_for_player_collisions w2).score = w2.score) ∧
    (∀ w2, (update_score_text w2).score = w2.score) ∧
    (∀ w2, (applyNextState w2).score = w2.score) ∧
    (∀ w2, (darken_screen w2).score = w2.score) ∧
    (∀ w2, (display_game_over_text w2).score = w2.score) := by
  refine ⟨?_, fun i w2 => (handle_input_preserves i w2).1,
    fun dt w2 => (update_preserves dt w2).1,
    fun d r1 r2 r3 w2 => (spawn_enemies_preserves d r1 r2 r3 w2).1,
    fun i w2 => (spawn_bullets_preserves i w2).1,
    fun w2 => (check_for_player_collisions_preserves w2).1,
    fun w2 => (update_score_text_preserves w2).1,
    fun w2 => applyNextState_score w2,
    fun w2 => rfl, fun w2 => rfl⟩
  rw [frameStep_score_eq fi w hp h]
  exact Nat.le_add_right _ _

/-- Witness for C7 on a quiet frame from the coincident-pair scenario. -/
theorem frame_score_monotone_witness :
    pairScenario.state = GameState.Playing ∧
    pairScenario.score + (hitPairs (preCollision quietFrame pairScenario)).length < 2 ^ 32 ∧
    pairScenario.score ≤ (frameStep quietFrame pairScenario).score :=
  ⟨rfl,
    by norm_num [preCollision, maybeSpawnEnemies, spawn_bullets, handle_input, update,
      updateEntityMotion, singleMatch, quietFrame, noKeys, pairScenario, hitPairs, bulletQ,
      enemyQ, collides, dist2, posOf, List.product],
    (frame_score_monotone_amended quietFrame pairScenario rfl
      (by norm_num [preCollision, maybeSpawnEnemies, spawn_bullets, handle_input, update,
        updateEntityMotion, singleMatch, quietFrame, noKeys, pairScenario, hitPairs, bulletQ,
        enemyQ, collides, dist2, posOf, List.product])).1⟩

end DuckGame
